import Mathlib

/-!
Verification of the agricultural data-integration engine
(`src/data_manager.py`, class `AgriculturalDataManager`) against its
natural-language specification.

The pandas program is shallowly embedded over `List`-based tables:

* a DataFrame is a `List` of row structures;
* nullable (NaN-able) numeric cells are `Option ℚ`; non-nullable numeric
  cells are `ℚ` (Python floats are modelled as exact rationals);
* timestamps are rationals measured in days (so `2021-01-02` is
  `2021-01-01 + 1`, and an hourly reading sits at `h/24`);
* a raised Python exception is `Except.error`;
* the in-place `DataFrame.set_index('date', inplace=True)` mutation is
  modelled by a boolean `…_indexed` flag on each source table: once the
  flag is set the `date` column has been consumed into the index and a
  second `set_index('date')` raises `KeyError`, exactly as in pandas.

All definitions are structurally recursive so that concrete runs reduce
inside the kernel.
-/

attribute [local semireducible] Rat.add Rat.sub Rat.mul Rat.inv

/-- Arithmetic mean of a list of rationals, as computed by pandas
`DataFrame.mean()` on a column without nulls.  (pandas returns NaN on an
empty column; every call site below applies this to a nonempty list, where
the two semantics agree.) -/
def qmean (l : List ℚ) : ℚ := l.sum / l.length

/-- Sample variance with `ddof = 1` (the pandas default for `std`):
`Σ (x - mean)² / (n - 1)`. -/
def sampleVar (l : List ℚ) : ℚ :=
  ((l.map (fun x => (x - qmean l) ^ 2)).sum) / ((l.length : ℚ) - 1)

/-- pandas `Series.std()` (`ddof = 1`): NaN (`none`) when fewer than two
observations, otherwise the square root of the sample variance.
`Rat.sqrt` is the exact square root whenever the variance is a perfect
rational square (in particular on every concrete input evaluated below);
no theorem in this file depends on its value elsewhere. -/
def sampleStd (l : List ℚ) : Option ℚ :=
  if 2 ≤ l.length then some (Rat.sqrt (sampleVar l)) else none

/-- Forward-fill pass: `carry` is the last valid value seen so far; a null
cell takes the carry.  This is `Series.fillna(method='ffill')` restricted
to one column. -/
def ffillAux (carry : Option ℚ) : List (Option ℚ) → List (Option ℚ)
  | [] => []
  | some v :: rest => some v :: ffillAux (some v) rest
  | none :: rest => carry :: ffillAux carry rest

/-- pandas `fillna(method='ffill')` on one column. -/
def ffill (l : List (Option ℚ)) : List (Option ℚ) := ffillAux none l

/-- pandas `fillna(method='bfill')` on one column: each null takes the next
valid value below it, i.e. a forward fill run on the reversed column. -/
def bfill (l : List (Option ℚ)) : List (Option ℚ) := (ffill l.reverse).reverse

/-- The Gap Filler's carry fill for one column of one parcel:
`fillna(method='bfill').fillna(method='ffill')` — backward fill first,
then forward fill (data_manager.py line 157). -/
def carryFill (l : List (Option ℚ)) : List (Option ℚ) := ffill (bfill l)

/-- Positions (0-based) and values of the valid cells of a column,
starting the numbering at `i`. -/
def validPairsAux (i : ℕ) : List (Option ℚ) → List (ℕ × ℚ)
  | [] => []
  | some v :: rest => (i, v) :: validPairsAux (i + 1) rest
  | none :: rest => validPairsAux (i + 1) rest

/-- Positions and values of the valid cells of a column. -/
def validPairs (l : List (Option ℚ)) : List (ℕ × ℚ) := validPairsAux 0 l

/-- Value interpolated at position `i` from the valid cells `ps`:
linear interpolation between the nearest valid neighbours, flat
extrapolation past the ends, null when the column has no valid cell.
This is pandas `interpolate(method='linear', limit_direction='both')`
at one null position ('linear' ignores the index and treats rows as
equally spaced). -/
def interpAt (ps : List (ℕ × ℚ)) (i : ℕ) : Option ℚ :=
  match (ps.filter (fun q => q.1 ≤ i)).getLast?, (ps.filter (fun q => i ≤ q.1)).head? with
  | some (j1, v1), some (j2, v2) =>
      some (v1 + (v2 - v1) * ((i : ℚ) - (j1 : ℚ)) / ((j2 : ℚ) - (j1 : ℚ)))
  | some (_, v1), none => some v1
  | none, some (_, v2) => some v2
  | none, none => none

/-- One pass of linear interpolation over a column: valid cells are kept,
null cells are interpolated at their position. -/
def linInterpAux (ps : List (ℕ × ℚ)) (i : ℕ) : List (Option ℚ) → List (Option ℚ)
  | [] => []
  | some v :: rest => some v :: linInterpAux ps (i + 1) rest
  | none :: rest => interpAt ps i :: linInterpAux ps (i + 1) rest

/-- pandas `interpolate(method='linear', limit_direction='both')` on one
column of one parcel. -/
def linInterp (l : List (Option ℚ)) : List (Option ℚ) := linInterpAux (validPairs l) 0 l

/-- Distinct values of a key column in order of first appearance
(`Series.unique()`); `seen` accumulates the values already emitted. -/
def uniqueAux (seen : List ℕ) : List ℕ → List ℕ
  | [] => []
  | x :: xs => if x ∈ seen then uniqueAux seen xs else x :: uniqueAux (x :: seen) xs

/-- pandas `Series.unique()` on an integer key column. -/
def uniqueKeys (l : List ℕ) : List ℕ := uniqueAux [] l

/-- Insert a row into a list sorted by the rational key `key`. -/
def insertByKey {α : Type} (key : α → ℚ) (x : α) : List α → List α
  | [] => [x]
  | y :: ys => if key x ≤ key y then x :: y :: ys else y :: insertByKey key x ys

/-- Sort a table by a rational key (models pandas `sort_index()` /
`sort_values`; the claims below do not depend on the order of ties). -/
def sortByKey {α : Type} (key : α → ℚ) (l : List α) : List α :=
  l.foldr (insertByKey key) []

/-- `rows.flatMap f` written with structural recursion. -/
def concatMap {α β : Type} (f : α → List β) : List α → List β
  | [] => []
  | x :: xs => f x ++ concatMap f xs

/-- The chunking loop of `load_data` (`for i in range(0, len(df), 24)`),
with the remaining row count as structural fuel: successive blocks of 24
rows, the final block possibly shorter. -/
def chunksAux {α : Type} : ℕ → List α → List (List α)
  | 0, _ => []
  | _, [] => []
  | n + 1, l => l.take 24 :: chunksAux n (l.drop 24)

/-- Split a table into consecutive blocks of 24 rows (`chunk_size = 24`
in `load_data`). -/
def chunks24 {α : Type} (l : List α) : List (List α) := chunksAux l.length l

/-- pandas `pd.date_range(start, end)` with daily frequency, on day-valued
timestamps: `start, start + 1, …` up to `end`. -/
def dateRange (a b : ℚ) : List ℚ :=
  if b < a then [] else (List.range ((b - a).floor.toNat + 1)).map (fun k => a + (k : ℚ))

/-- The `days` component of a pandas `Timedelta` whose length is `d` days:
the floor of the day count (e.g. `Timedelta('-1 days +23:00:00').days = -1`). -/
def timedeltaDays (d : ℚ) : ℤ := d.floor

/-- Minimum of a date column with first element `x` (a nonempty
`DatetimeIndex.min()`). -/
def qmin (x : ℚ) (xs : List ℚ) : ℚ := xs.foldl min x

/-- Maximum of a date column with first element `x` (a nonempty
`DatetimeIndex.max()`). -/
def qmax (x : ℚ) (xs : List ℚ) : ℚ := xs.foldl max x

/-- One record of `monitoring_cultures.csv`: per-parcel sensor readings.
Weather-typed columns (`temperature`, …) live in the weather table, not
here — `prepare_features` introduces them via the as-of join. -/
structure MonitoringRow where
  date : ℚ
  parcelle_id : ℕ
  latitude : ℚ
  longitude : ℚ
  ndvi : Option ℚ
  stress_hydrique : Option ℚ
  rendement_estime : Option ℚ
  progression : Option ℚ
  culture : ℕ
deriving DecidableEq

/-- One record of `meteo_detaillee.csv` (and also one aggregated weather
record, since the chunk mean keeps the same columns). -/
structure WeatherRow where
  date : ℚ
  temperature : ℚ
  humidite : ℚ
  precipitation : ℚ
  rayonnement_solaire : ℚ
  vitesse_vent : ℚ
  direction_vent : ℚ
deriving DecidableEq

/-- One record of `sols.csv`. -/
structure SoilRow where
  parcelle_id : ℕ
  latitude : ℚ
  longitude : ℚ
  capacite_retention_eau : Option ℚ
deriving DecidableEq

/-- One record of `historique_rendements.csv`.  `rendement_final` is
non-null because `load_data` runs `fillna(0)` on it; `culture` is the
optional culture column of the yield history (the claims about the merge
address the case where it is present). -/
structure YieldRow where
  date : ℚ
  parcelle_id : ℕ
  rendement_final : ℚ
  culture : ℕ
deriving DecidableEq

/-- One row of the FeatureTable built by `prepare_features`:
monitoring columns, weather columns from the as-of join (null when no
weather record precedes the monitoring timestamp), soil water retention
from the soil join, and `rendement_final` / `culture` from the
yield-history merge. -/
structure FeatureRow where
  date : ℚ
  parcelle_id : ℕ
  latitude : ℚ
  longitude : ℚ
  ndvi : Option ℚ
  stress_hydrique : Option ℚ
  rendement_estime : Option ℚ
  progression : Option ℚ
  temperature : Option ℚ
  humidite : Option ℚ
  precipitation : Option ℚ
  rayonnement_solaire : Option ℚ
  vitesse_vent : Option ℚ
  direction_vent : Option ℚ
  capacite_retention_eau : Option ℚ
  rendement_final : Option ℚ
  culture : Option ℕ
deriving DecidableEq

/-- One row of the table returned by `calculate_risk_metrics` (one per
parcel).  `capacite_retention_eau` and `risk_score` start as placeholders
(`none`) and are filled by the soil join and the final score computation. -/
structure RiskRow where
  parcelle_id : ℕ
  mean_stress : ℚ
  stress_variability : Option ℚ
  mean_temperature : ℚ
  capacite_retention_eau : Option ℚ
  risk_score : Option ℚ
deriving DecidableEq

/-- The four decomposition series returned by `analyze_yield_patterns`. -/
structure DecompResult where
  trend : List ℚ
  seasonal : List ℚ
  resid : List ℚ
  observed : List ℚ
deriving DecidableEq

/-- The session state of `AgriculturalDataManager` after `load_data`:
the four source tables (weather already aggregated), plus one flag per
date-indexed table recording whether `set_index('date', inplace=True)` has
already consumed the `date` column into the index. -/
structure AgriState where
  monitoring_data : List MonitoringRow
  weather_data : List WeatherRow
  soil_data : List SoilRow
  yield_history : List YieldRow
  monitoring_indexed : Bool
  weather_indexed : Bool
  yield_indexed : Bool
deriving DecidableEq

/-- `pd.to_datetime(chunk_mean["date"], format="%Y-%m-%d")`
(data_manager.py line 51).  `chunk_mean["date"]` is already a `Timestamp`
(the mean of the block's timestamps), and `pd.to_datetime` applied to an
existing datetime value returns it unchanged — the `format` argument only
drives string parsing.  The call is therefore the identity: the
time-of-day of the mean timestamp is NOT truncated. -/
def pd_to_datetime_fmt (t : ℚ) : ℚ := t

/-- Modelled from the spec: "the `date` field takes the mean timestamp of
the block, then is normalized to a date at midnight" — truncation of a
day-valued timestamp to midnight.  Stated only to compare with what the
code computes (`pd_to_datetime_fmt`). -/
def specNormalizeToMidnight (t : ℚ) : ℚ := (t.floor : ℚ)

/-- `chunk_mean = self.weather_data.iloc[i:i+24, :].mean()` followed by the
`pd.to_datetime` call on its `date` entry: every numeric field becomes the
arithmetic mean of the block, the date the (untruncated) mean timestamp. -/
def chunkMean (c : List WeatherRow) : WeatherRow :=
  { date := pd_to_datetime_fmt (qmean (c.map (·.date)))
    temperature := qmean (c.map (·.temperature))
    humidite := qmean (c.map (·.humidite))
    precipitation := qmean (c.map (·.precipitation))
    rayonnement_solaire := qmean (c.map (·.rayonnement_solaire))
    vitesse_vent := qmean (c.map (·.vitesse_vent))
    direction_vent := qmean (c.map (·.direction_vent)) }

/-- The Weather Aggregator: the chunking loop of `load_data`
(data_manager.py lines 45–55) that replaces `weather_data` by one mean
record per block of 24 raw rows. -/
def weatherAggregate (raw : List WeatherRow) : List WeatherRow :=
  (chunks24 raw).map chunkMean

/-- `self.monitoring_data.set_index('date', inplace=True)` — raises
`KeyError` if the `date` column was already consumed into the index by an
earlier call. -/
def setIndexMonitoring (s : AgriState) : Except String AgriState :=
  if s.monitoring_indexed then .error "KeyError: None of [date] are in the columns (monitoring_data)"
  else .ok { s with monitoring_indexed := true }

/-- `self.weather_data.set_index('date', inplace=True)`. -/
def setIndexWeather (s : AgriState) : Except String AgriState :=
  if s.weather_indexed then .error "KeyError: None of [date] are in the columns (weather_data)"
  else .ok { s with weather_indexed := true }

/-- `self.yield_history.set_index('date', inplace=True)`. -/
def setIndexYield (s : AgriState) : Except String AgriState :=
  if s.yield_indexed then .error "KeyError: None of [date] are in the columns (yield_history)"
  else .ok { s with yield_indexed := true }

/-- `_setup_temporal_indices` (data_manager.py lines 58–65): date-index the
three temporal tables in place, in order. -/
def setup_temporal_indices (s : AgriState) : Except String AgriState := do
  let s1 ← setIndexMonitoring s
  let s2 ← setIndexWeather s1
  setIndexYield s2

/-- The monitoring-vs-weather line of the consistency report: both range
endpoints must agree within the 1-day tolerance
(`abs((monitoring_range[i] - weather_range[i]).days) <= tolerance.days`).
The weather range is `none` when the weather table is empty (pandas `NaT`,
whose comparisons are all false). -/
def monWeatherLine (m0 m1 : ℚ) (w : Option (ℚ × ℚ)) : String :=
  match w with
  | some (w0, w1) =>
      if |timedeltaDays (m0 - w0)| ≤ 1 ∧ |timedeltaDays (m1 - w1)| ≤ 1 then "   → OK"
      else "   → Incohérence détectée"
  | none => "   → Incohérence détectée"

/-- The yield-vs-monitoring line: the yield range must lie inside the
monitoring range (`NaT` comparisons are false, so an empty yield table
reports an inconsistency). -/
def yieldMonLine (m0 m1 : ℚ) (y : Option (ℚ × ℚ)) : String :=
  match y with
  | some (y0, y1) =>
      if y0 ≥ m0 ∧ y1 ≤ m1 then "   → OK"
      else "   → Incohérence détectée : La période des rendements dépasse celle du monitoring"
  | none => "   → Incohérence détectée : La période des rendements dépasse celle du monitoring"

/-- The missing-dates line: the monitoring date index must equal the full
daily calendar range it spans (`index.equals(pd.date_range(...))`). -/
def missingDatesLine (dates : List ℚ) (m0 m1 : ℚ) : String :=
  if dates = dateRange m0 m1 then "   → OK"
  else "   → Des dates manquent dans le jeu de données de monitoring"

/-- Min and max of a date column, `none` for an empty table (pandas
`NaT`). -/
def dateRangeOf (dates : List ℚ) : Option (ℚ × ℚ) :=
  match dates with
  | [] => none
  | d :: ds => some (qmin d ds, qmax d ds)

/-- Textual rendering of a date range, approximating Python's tuple
formatting (the exact text of these lines carries no checked content). -/
def rangeText (r : Option (ℚ × ℚ)) : String :=
  match r with
  | some (a, b) => "(" ++ toString a ++ ", " ++ toString b ++ ")"
  | none => "(NaT, NaT)"

/-- `_verify_temporal_consistency` (data_manager.py lines 67–109): builds
and prints the 15-line report.  It mutates nothing.  With an empty
monitoring table the computed range is `(NaT, NaT)` and
`pd.date_range(start=NaT, end=NaT)` raises
`ValueError: Neither start nor end can be NaT` — modelled as `none`.
(With an empty weather or yield table `pd.NaT` propagates through the
comparisons as NaN/false and no exception occurs.) -/
def verify_temporal_consistency (s : AgriState) : Option (List String) :=
  match s.monitoring_data.map (·.date) with
  | [] => none
  | d :: ds =>
      let m0 := qmin d ds
      let m1 := qmax d ds
      let wr := dateRangeOf (s.weather_data.map (·.date))
      let yr := dateRangeOf (s.yield_history.map (·.date))
      some
        [ "===== Vérification de la cohérence temporelle =====",
          "Période de monitoring : (" ++ toString m0 ++ ", " ++ toString m1 ++ ")",
          "Période météo         : " ++ rangeText wr,
          "Période des rendements: " ++ rangeText yr,
          "",
          "1. Cohérence entre monitoring et météo:",
          monWeatherLine m0 m1 wr,
          "",
          "2. Cohérence entre rendements et monitoring:",
          yieldMonLine m0 m1 yr,
          "",
          "3. Vérification des dates manquantes dans le monitoring:",
          missingDatesLine (s.monitoring_data.map (·.date)) m0 m1,
          "",
          "===== Fin de la vérification =====" ]

/-- `pd.merge_asof` lookup for one monitoring timestamp `t`: the most
recent weather record (in the date-sorted weather table `ws`) whose
timestamp is at or before `t`; `none` when every weather record is later. -/
def asofPick (ws : List WeatherRow) (t : ℚ) : Option WeatherRow :=
  (ws.filter (fun w => w.date ≤ t)).getLast?

/-- One row of `combined_1`: a monitoring row with the weather columns of
its as-of match (nulls when there is no match).  Soil and yield columns
are placeholders until their joins run; `culture` is monitoring's for now. -/
def asofRow (m : MonitoringRow) (w : Option WeatherRow) : FeatureRow :=
  { date := m.date
    parcelle_id := m.parcelle_id
    latitude := m.latitude
    longitude := m.longitude
    ndvi := m.ndvi
    stress_hydrique := m.stress_hydrique
    rendement_estime := m.rendement_estime
    progression := m.progression
    temperature := w.map (·.temperature)
    humidite := w.map (·.humidite)
    precipitation := w.map (·.precipitation)
    rayonnement_solaire := w.map (·.rayonnement_solaire)
    vitesse_vent := w.map (·.vitesse_vent)
    direction_vent := w.map (·.direction_vent)
    capacite_retention_eau := none
    rendement_final := none
    culture := some m.culture }

/-- `pd.merge_asof(monitoring.sort_index(), weather.sort_index(), …)`:
each monitoring row (in date order) is matched to its as-of weather
record; the row count is exactly the monitoring row count. -/
def mergeAsofWeather (ms : List MonitoringRow) (ws : List WeatherRow) : List FeatureRow :=
  let sortedW := sortByKey (·.date) ws
  (sortByKey (·.date) ms).map (fun m => asofRow m (asofPick sortedW m.date))

/-- `combined_1.merge(soil_data, how='left', on=['parcelle_id',
'latitude', 'longitude'])`: each row is replicated once per matching soil
record (left rows without a match keep null soil columns). -/
def mergeSoil (soil : List SoilRow) (rows : List FeatureRow) : List FeatureRow :=
  concatMap
    (fun r =>
      match soil.filter (fun t =>
          t.parcelle_id = r.parcelle_id ∧ t.latitude = r.latitude ∧ t.longitude = r.longitude) with
      | [] => [{ r with capacite_retention_eau := none }]
      | t :: ts => (t :: ts).map (fun t' => { r with capacite_retention_eau := t'.capacite_retention_eau }))
    rows

/-- `_enrich_with_yield_history` (data_manager.py lines 112–123):
`pd.merge(data.drop(columns=['culture']), yield_history, on=['date',
'parcelle_id'], how='left')`.  The monitoring-sourced `culture` column is
dropped BEFORE the merge, so the resulting `culture` (like
`rendement_final`) comes from the yield history — null when a row has no
matching yield record, replicated when it has several. -/
def enrich_with_yield_history (ys : List YieldRow) (rows : List FeatureRow) : List FeatureRow :=
  concatMap
    (fun r =>
      match ys.filter (fun y => y.date = r.date ∧ y.parcelle_id = r.parcelle_id) with
      | [] => [{ r with rendement_final := none, culture := none }]
      | y :: tl => (y :: tl).map
          (fun y' => { r with rendement_final := some y'.rendement_final, culture := some y'.culture }))
    rows

/-- Scatter step of the carry-fill loop: walk the table, and at each row of
parcel `p` pop the next value of each filled column (the six carry-fill
columns), leaving other parcels' rows untouched. -/
def scatterCarry (p : ℕ) :
    List FeatureRow → List (Option ℚ) → List (Option ℚ) → List (Option ℚ) →
    List (Option ℚ) → List (Option ℚ) → List (Option ℚ) → List FeatureRow
  | [], _, _, _, _, _, _ => []
  | r :: rest, ts, hs, ps, rs, vs, ds =>
    if r.parcelle_id = p then
      { r with
        temperature := ts.headD r.temperature
        humidite := hs.headD r.humidite
        precipitation := ps.headD r.precipitation
        rayonnement_solaire := rs.headD r.rayonnement_solaire
        vitesse_vent := vs.headD r.vitesse_vent
        direction_vent := ds.headD r.direction_vent } ::
      scatterCarry p rest ts.tail hs.tail ps.tail rs.tail vs.tail ds.tail
    else r :: scatterCarry p rest ts hs ps rs vs ds

/-- One iteration of the first gap-fill loop of `prepare_features`
(lines 152–160): take the parcel's slice, run
`fillna(method='bfill').fillna(method='ffill')` on the six carry-fill
columns, and write the result back at the parcel's positions. -/
def updateParcelleCarry (p : ℕ) (rows : List FeatureRow) : List FeatureRow :=
  let slice := rows.filter (fun r => r.parcelle_id = p)
  scatterCarry p rows
    (carryFill (slice.map (·.temperature)))
    (carryFill (slice.map (·.humidite)))
    (carryFill (slice.map (·.precipitation)))
    (carryFill (slice.map (·.rayonnement_solaire)))
    (carryFill (slice.map (·.vitesse_vent)))
    (carryFill (slice.map (·.direction_vent)))

/-- The first gap-fill loop: `for parcelle in features['parcelle_id'].unique()`. -/
def gapFillCarry (rows : List FeatureRow) : List FeatureRow :=
  (uniqueKeys (rows.map (·.parcelle_id))).foldl (fun acc p => updateParcelleCarry p acc) rows

/-- Scatter step of the interpolation loop (two columns). -/
def scatterInterp (p : ℕ) :
    List FeatureRow → List (Option ℚ) → List (Option ℚ) → List FeatureRow
  | [], _, _ => []
  | r :: rest, es, gs =>
    if r.parcelle_id = p then
      { r with
        rendement_estime := es.headD r.rendement_estime
        progression := gs.headD r.progression } ::
      scatterInterp p rest es.tail gs.tail
    else r :: scatterInterp p rest es gs

/-- One iteration of the second gap-fill loop of `prepare_features`
(lines 166–174): linear interpolation of `rendement_estime` and
`progression` within the parcel's slice. -/
def updateParcelleInterp (p : ℕ) (rows : List FeatureRow) : List FeatureRow :=
  let slice := rows.filter (fun r => r.parcelle_id = p)
  scatterInterp p rows
    (linInterp (slice.map (·.rendement_estime)))
    (linInterp (slice.map (·.progression)))

/-- The second gap-fill loop. -/
def gapFillInterp (rows : List FeatureRow) : List FeatureRow :=
  (uniqueKeys (rows.map (·.parcelle_id))).foldl (fun acc p => updateParcelleInterp p acc) rows

/-- `features["rendement_final"] = features["rendement_final"].fillna(0)`
(line 176). -/
def fillRendementFinal (rows : List FeatureRow) : List FeatureRow :=
  rows.map (fun r => { r with rendement_final := some (r.rendement_final.getD 0) })

/-- `prepare_features` (data_manager.py lines 125–178).  Returns the
session state as mutated by `_setup_temporal_indices` together with the
FeatureTable.  The two `set_index(..., inplace=True)` re-index steps after
the soil and yield merges raise `ValueError: Length mismatch` when a
1:many join changed the row count, exactly as `DataFrame.set_index` with
an index of the wrong length does. -/
def prepare_features (s : AgriState) : Except String (AgriState × List FeatureRow) := do
  let s' ← setup_temporal_indices s
  match verify_temporal_consistency s' with
  | none => .error "ValueError: Neither start nor end can be NaT"
  | some _report =>
    let combined1 := mergeAsofWeather s'.monitoring_data s'.weather_data
    let combined2 := mergeSoil s'.soil_data combined1
    if combined2.length = combined1.length then
      let features0 := enrich_with_yield_history s'.yield_history combined2
      if features0.length = combined2.length then
        .ok (s', fillRendementFinal (gapFillInterp (gapFillCarry features0)))
      else .error "ValueError: Length mismatch (set_index after yield merge)"
    else .error "ValueError: Length mismatch (set_index after soil merge)"

/-- State of the manager after a successful `prepare_features` call
(`none` when the call raised). -/
def firstState (s : AgriState) : Option AgriState :=
  match prepare_features s with
  | .ok (s', _) => some s'
  | .error _ => none

/-- Two consecutive `prepare_features` calls on the same manager: the
second call runs on the state the first call left behind. -/
def secondCall (s : AgriState) : Except String (AgriState × List FeatureRow) :=
  match prepare_features s with
  | .ok (s', _) => prepare_features s'
  | .error e => .error e

/-- `true` exactly on `Except.error`. -/
def errB {α : Type} : Except String α → Bool
  | .error _ => true
  | .ok _ => false

/-- The composite risk score of `calculate_risk_metrics`
(data_manager.py lines 259–264), with the weight dictionary
`{mean_stress: 0.4, stress_variability: 0.3, capacite_retention_eau: 0.2,
mean_temperature: 0.1}` inlined (Python float literals modelled as exact
rationals). -/
def risk_score (ms sv cap mt : ℚ) : ℚ :=
  ms * 0.4 + sv * 0.3 + (1 - cap) * 0.2 + mt * 0.1

/-- Per-parcel stress/temperature aggregates of `calculate_risk_metrics`:
`groupby('parcelle_id')['stress_hydrique'].agg(['mean','std'])` and the
mean temperature, for one group.  The null check has already passed, so
the group's non-null values are the whole group (pandas `mean`/`std` skip
NaN).  Soil capacity and risk score are placeholders at this stage. -/
def riskGroupRow (data : List FeatureRow) (p : ℕ) : RiskRow :=
  let grp := data.filter (fun r => r.parcelle_id = p)
  let stress := grp.filterMap (·.stress_hydrique)
  let temps := grp.filterMap (·.temperature)
  { parcelle_id := p
    mean_stress := qmean stress
    stress_variability := sampleStd stress
    mean_temperature := qmean temps
    capacite_retention_eau := none
    risk_score := none }

/-- `stress_metrics.join(soil_retention, on='parcelle_id', how='left')`
where `soil_retention = soil_data.set_index('parcelle_id')
['capacite_retention_eau']`: each metrics row is replicated once per soil
record with the same parcel id (null capacity when there is none). -/
def joinSoilRetention (soil : List SoilRow) (rows : List RiskRow) : List RiskRow :=
  concatMap
    (fun m =>
      match soil.filter (fun t => t.parcelle_id = m.parcelle_id) with
      | [] => [{ m with capacite_retention_eau := none }]
      | t :: ts => (t :: ts).map (fun t' => { m with capacite_retention_eau := t'.capacite_retention_eau }))
    rows

/-- The final `risk_score` column: NaN (`none`) propagates from a NaN
`stress_variability` (a single-observation parcel) or a NaN capacity. -/
def addRiskScore (m : RiskRow) : RiskRow :=
  match m.stress_variability, m.capacite_retention_eau with
  | some sv, some cap => { m with risk_score := some (risk_score m.mean_stress sv cap m.mean_temperature) }
  | _, _ => { m with risk_score := none }

/-- `calculate_risk_metrics` (data_manager.py lines 218–266).  Validates
`stress_hydrique`/`temperature` for nulls, validates the soil table's
`capacite_retention_eau` column for nulls (`parcelle_id` is a key column,
modelled non-null), aggregates per parcel (pandas `groupby` sorts the
distinct parcel ids ascending), joins the soil water-retention capacity,
raises if any parcel ended up without one, and appends the composite
score. -/
def calculate_risk_metrics (soil : List SoilRow) (data : List FeatureRow) :
    Except String (List RiskRow) :=
  if data.any (fun r => r.stress_hydrique.isNone || r.temperature.isNone) then
    .error "Des valeurs manquantes sont présentes dans les colonnes stress_hydrique ou temperature."
  else if soil.any (fun t => t.capacite_retention_eau.isNone) then
    .error "Des valeurs manquantes sont présentes dans les données des sols."
  else
    let parcels := sortByKey (fun (n : ℕ) => (n : ℚ)) (uniqueKeys (data.map (·.parcelle_id)))
    let joined := joinSoilRetention soil (parcels.map (riskGroupRow data))
    if joined.any (fun m => m.capacite_retention_eau.isNone) then
      .error "Certaines parcelles manquent de données sur la capacité de rétention en eau."
    else .ok (joined.map addRiskScore)

/-- `statsmodels.tsa.seasonal.seasonal_decompose(series, model='additive',
period=1)`.  The function first checks for two complete cycles
(`len(x) < 2 * period` raises).  With `period = 1` the centred moving
average filter is `[1.0]`, so the trend equals the observed series with no
boundary NaNs; the detrended series is identically zero, hence the
seasonal means (recentred) and the residual are zero. -/
def seasonal_decompose_period1 (xs : List ℚ) :
    Except String (List ℚ × List ℚ × List ℚ × List ℚ) :=
  if xs.length < 2 then
    .error "ValueError: x must have 2 complete cycles requires 2 observations."
  else .ok (xs, xs.map (fun _ => 0), xs.map (fun _ => 0), xs)

/-- `analyze_yield_patterns` (data_manager.py lines 269–296): filter the
yield history to the parcel, raise on an empty slice, sort by date, run
the additive decomposition with period 1, and collect the four series. -/
def analyze_yield_patterns (ys : List YieldRow) (pid : ℕ) : Except String DecompResult :=
  let history := ys.filter (fun y => y.parcelle_id = pid)
  if history = [] then
    .error ("Aucune donnée de rendement trouvée pour la parcelle " ++ toString pid ++ ".")
  else
    match seasonal_decompose_period1 ((sortByKey (·.date) history).map (·.rendement_final)) with
    | .error e => .error e
    | .ok (t, sea, res, obs) => .ok { trend := t, seasonal := sea, resid := res, observed := obs }

/-- A raw weather record with the given timestamp and temperature (other
numeric fields zero). -/
def mkWeather (d temp : ℚ) : WeatherRow :=
  { date := d, temperature := temp, humidite := 0, precipitation := 0,
    rayonnement_solaire := 0, vitesse_vent := 0, direction_vent := 0 }

/-- One day of hourly raw weather: 24 rows with timestamps `h/24` days
(h = 0, …, 23) and temperatures `0, …, 23`. -/
def hourlyDay : List WeatherRow :=
  (List.range 24).map (fun h => mkWeather ((h : ℚ) / 24) (h : ℚ))

/-- A monitoring record at the given date (parcel 1, all sensor fields
present). -/
def mkMon (d : ℚ) : MonitoringRow :=
  { date := d, parcelle_id := 1, latitude := 0, longitude := 0,
    ndvi := some (1/2), stress_hydrique := some (1/4),
    rendement_estime := some 3, progression := some (1/10), culture := 1 }

/-- A small freshly-loaded session: one monitoring row (culture 1), one
aggregated weather row, one soil row, one matching yield row whose culture
is 2. -/
def sampleState : AgriState :=
  { monitoring_data := [mkMon 1]
    weather_data := [mkWeather 0 20]
    soil_data := [{ parcelle_id := 1, latitude := 0, longitude := 0, capacite_retention_eau := some (1/2) }]
    yield_history := [{ date := 1, parcelle_id := 1, rendement_final := 5, culture := 2 }]
    monitoring_indexed := false
    weather_indexed := false
    yield_indexed := false }

/-- Consistency-check session with monitoring range `[2021-01-01,
2021-12-31]` (days 1 and 365), weather range `[2021-01-02, 2021-12-30]`
(days 2 and 364) and a yield date inside the monitoring range. -/
def stateTolOK : AgriState :=
  { monitoring_data := [mkMon 1, mkMon 365]
    weather_data := [mkWeather 2 0, mkWeather 364 0]
    soil_data := []
    yield_history := [{ date := 100, parcelle_id := 1, rendement_final := 5, culture := 1 }]
    monitoring_indexed := false
    weather_indexed := false
    yield_indexed := false }

/-- Same session but with the weather range starting on 2021-01-05
(day 5). -/
def stateTolBad : AgriState :=
  { stateTolOK with weather_data := [mkWeather 5 0, mkWeather 364 0] }

/-- A session whose monitoring table is empty. -/
def stateEmptyMon : AgriState :=
  { stateTolOK with monitoring_data := [] }

/-- A feature row of parcel `p` with the given stress and temperature
(the two columns `calculate_risk_metrics` reads besides `parcelle_id`). -/
def mkFeat (p : ℕ) (st tp : ℚ) : FeatureRow :=
  { date := 0, parcelle_id := p, latitude := 0, longitude := 0,
    ndvi := none, stress_hydrique := some st, rendement_estime := none,
    progression := none, temperature := some tp, humidite := none,
    precipitation := none, rayonnement_solaire := none, vitesse_vent := none,
    direction_vent := none, capacite_retention_eau := none,
    rendement_final := none, culture := none }

/-- Risk-scorer input: parcel 1 has two rows, parcel 2 exactly one; no
nulls anywhere. -/
def riskData : List FeatureRow :=
  [mkFeat 1 (1/4) 20, mkFeat 1 (3/4) 22, mkFeat 2 (1/2) 25]

/-- Soil table for the risk-scorer runs: one record per parcel, both with
a water-retention capacity. -/
def riskSoil : List SoilRow :=
  [{ parcelle_id := 1, latitude := 0, longitude := 0, capacite_retention_eau := some (1/2) },
   { parcelle_id := 2, latitude := 0, longitude := 0, capacite_retention_eau := some (3/10) }]

/-- Yield history for the decomposition runs: parcel 1 has two records,
parcel 2 exactly one, parcel 3 none. -/
def yieldsFix : List YieldRow :=
  [{ date := 1, parcelle_id := 1, rendement_final := 5, culture := 1 },
   { date := 2, parcelle_id := 1, rendement_final := 6, culture := 1 },
   { date := 1, parcelle_id := 2, rendement_final := 4, culture := 1 }]

/-- A 12-row carry-fill column of one parcel with valid values exactly at
positions 2, 5 and 9. -/
def gapCol : List (Option ℚ) :=
  [none, none, some 20, none, none, some 50, none, none, none, some 90, none, none]

/-- Lengths of the four series returned by `analyze_yield_patterns`
(`none` when the call raised). -/
def decompLengths (ys : List YieldRow) (pid : ℕ) : Option (ℕ × ℕ × ℕ × ℕ) :=
  match analyze_yield_patterns ys pid with
  | .ok d => some (d.trend.length, d.seasonal.length, d.resid.length, d.observed.length)
  | .error _ => none

/-- The `culture` column of the FeatureTable built by `prepare_features`
(`none` when the call raised). -/
def featuresCultures (s : AgriState) : Option (List (Option ℕ)) :=
  match prepare_features s with
  | .ok (_, f) => some (f.map (·.culture))
  | .error _ => none

/-- Row count of the FeatureTable built by `prepare_features` (`none`
when the call raised). -/
def featureCount (s : AgriState) : Option ℕ :=
  match prepare_features s with
  | .ok (_, f) => some f.length
  | .error _ => none

/-- The result row of `calculate_risk_metrics` for parcel `p` (`none`
when the call raised or the parcel is absent). -/
def riskFor (soil : List SoilRow) (data : List FeatureRow) (p : ℕ) : Option RiskRow :=
  match calculate_risk_metrics soil data with
  | .ok l => (l.filter (fun m => m.parcelle_id = p)).head?
  | .error _ => none

/-- How many result rows of `calculate_risk_metrics` carry parcel `p`
(`none` when the call raised). -/
def riskCount (soil : List SoilRow) (data : List FeatureRow) (p : ℕ) : Option ℕ :=
  match calculate_risk_metrics soil data with
  | .ok l => some ((l.map (·.parcelle_id)).count p)
  | .error _ => none

/-- A one-row input to the yield-history merge: the as-of-joined
monitoring row of `sampleState`. -/
def enrichRows : List FeatureRow := [asofRow (mkMon 1) (some (mkWeather 0 20))]

/-- The row the yield-history merge produces from `enrichRows` and
`sampleState`'s yield history. -/
def enrichedRow : FeatureRow :=
  { asofRow (mkMon 1) (some (mkWeather 0 20)) with
      rendement_final := some 5, culture := some 2 }

/-- The soil join of `calculate_risk_metrics` restricted to a unique-key
soil table: the first matching soil record's capacity (or null). -/
def withCap (soil : List SoilRow) (m : RiskRow) : RiskRow :=
  match soil.filter (fun t => t.parcelle_id = m.parcelle_id) with
  | [] => { m with capacite_retention_eau := none }
  | t :: _ => { m with capacite_retention_eau := t.capacite_retention_eau }

theorem concatMap_length_eq {α β : Type} (f : α → List β) :
    ∀ l : List α, (∀ x ∈ l, (f x).length = 1) → (concatMap f l).length = l.length := by
  intro l
  induction l with
  | nil => intro _; rfl
  | cons x xs ih =>
      intro h
      simp only [concatMap, List.length_append, List.length_cons]
      rw [h x (by simp), ih (fun y hy => h y (by simp [hy]))]
      omega

theorem insertByKey_perm {α : Type} (key : α → ℚ) (x : α) :
    ∀ l : List α, (insertByKey key x l).Perm (x :: l) := by
  intro l
  induction l with
  | nil => simp [insertByKey]
  | cons y ys ih =>
      by_cases h : key x ≤ key y
      · simp [insertByKey, h]
      · simp only [insertByKey, if_neg h]
        exact ((ih.cons y).trans (List.Perm.swap x y ys))

theorem sortByKey_perm {α : Type} (key : α → ℚ) :
    ∀ l : List α, (sortByKey key l).Perm l := by
  intro l
  induction l with
  | nil => simp [sortByKey]
  | cons x xs ih =>
      exact (insertByKey_perm key x (sortByKey key xs)).trans (ih.cons x)

theorem sortByKey_length {α : Type} (key : α → ℚ) (l : List α) :
    (sortByKey key l).length = l.length :=
  (sortByKey_perm key l).length_eq

theorem mem_sortByKey {α : Type} (key : α → ℚ) (l : List α) (x : α) :
    x ∈ sortByKey key l ↔ x ∈ l :=
  (sortByKey_perm key l).mem_iff

theorem mem_uniqueAux (x : ℕ) :
    ∀ (l seen : List ℕ), x ∈ uniqueAux seen l ↔ x ∈ l ∧ x ∉ seen := by
  intro l
  induction l with
  | nil => intro seen; simp [uniqueAux]
  | cons y ys ih =>
      intro seen
      by_cases hy : y ∈ seen
      · rw [uniqueAux, if_pos hy, ih seen]
        simp only [List.mem_cons]
        constructor
        · rintro ⟨h1, h2⟩; exact ⟨Or.inr h1, h2⟩
        · rintro ⟨rfl | h1, h2⟩
          · exact absurd hy h2
          · exact ⟨h1, h2⟩
      · rw [uniqueAux, if_neg hy]
        by_cases hxy : x = y
        · subst hxy; simp [hy]
        · simp only [List.mem_cons, hxy, false_or, ih (y :: seen), not_or]

theorem mem_uniqueKeys (x : ℕ) (l : List ℕ) : x ∈ uniqueKeys l ↔ x ∈ l := by
  rw [uniqueKeys, mem_uniqueAux]; simp

theorem nodup_uniqueAux :
    ∀ (l seen : List ℕ), (uniqueAux seen l).Nodup := by
  intro l
  induction l with
  | nil => intro seen; simp [uniqueAux]
  | cons y ys ih =>
      intro seen
      by_cases hy : y ∈ seen
      · rw [uniqueAux, if_pos hy]; exact ih seen
      · rw [uniqueAux, if_neg hy]
        refine List.nodup_cons.mpr ⟨fun hmem => ?_, ih (y :: seen)⟩
        exact ((mem_uniqueAux y ys (y :: seen)).mp hmem).2 (by simp)

theorem nodup_uniqueKeys (l : List ℕ) : (uniqueKeys l).Nodup :=
  nodup_uniqueAux l []

theorem filter_eq_singleton_of_nodup {l : List ℕ} (hn : l.Nodup) {p : ℕ} (hp : p ∈ l) :
    l.filter (fun x => x = p) = [p] := by
  induction l with
  | nil => cases hp
  | cons y ys ih =>
      rcases List.nodup_cons.mp hn with ⟨hy, hys⟩
      rcases List.mem_cons.mp hp with rfl | hp'
      · have hnil : ys.filter (fun x => x = p) = [] := by
          rw [List.filter_eq_nil_iff]
          intro a ha
          simp only [decide_eq_true_eq]
          rintro rfl
          exact hy ha
        simp [List.filter, hnil]
      · have hyp : y ≠ p := by rintro rfl; exact hy hp'
        simp [List.filter, hyp, ih hys hp']

theorem filter_eq_nil_of_not_mem {l : List ℕ} {p : ℕ} (hp : p ∉ l) :
    l.filter (fun x => x = p) = [] := by
  rw [List.filter_eq_nil_iff]
  intro a ha
  simp only [decide_eq_true_eq]
  rintro rfl
  exact hp ha

theorem chunksAux_length {α : Type} :
    ∀ (n : ℕ) (l : List α), l.length ≤ n → (chunksAux n l).length = (l.length + 23) / 24 := by
  intro n
  induction n with
  | zero =>
      intro l h
      have hl : l = [] := List.length_eq_zero.mp (Nat.le_zero.mp h)
      subst hl
      simp [chunksAux]
  | succ n ih =>
      intro l h
      cases l with
      | nil => simp [chunksAux]
      | cons x xs =>
          rw [show chunksAux (n + 1) (x :: xs) = (x :: xs).take 24 :: chunksAux n ((x :: xs).drop 24) from rfl]
          rw [List.length_cons]
          rw [ih ((x :: xs).drop 24) (by simp only [List.length_drop, List.length_cons] at h ⊢; omega)]
          simp only [List.length_drop, List.length_cons]
          omega

/-- The Weather Aggregator emits exactly `ceil(N/24)` records for `N` raw
rows. -/
theorem weatherAggregate_length (w : List WeatherRow) :
    (weatherAggregate w).length = (w.length + 23) / 24 := by
  rw [weatherAggregate, List.length_map, chunks24, chunksAux_length w.length w le_rfl]

theorem chunksAux_get? {α : Type} :
    ∀ (n : ℕ) (l : List α) (k : ℕ), l.length ≤ n →
      (chunksAux n l).get? k =
        if 24 * k < l.length then some ((l.drop (24 * k)).take 24) else none := by
  intro n
  induction n with
  | zero =>
      intro l k h
      have : l = [] := List.length_eq_zero.mp (Nat.le_zero.mp h)
      subst this
      simp [chunksAux]
  | succ n ih =>
      intro l k h
      cases l with
      | nil => simp [chunksAux]
      | cons x xs =>
          rw [show chunksAux (n + 1) (x :: xs) = (x :: xs).take 24 :: chunksAux n ((x :: xs).drop 24) from rfl]
          cases k with
          | zero => simp
          | succ k =>
              have hlen : ((x :: xs).drop 24).length ≤ n := by
                simp only [List.length_drop, List.length_cons] at h ⊢
                omega
              have hr := ih ((x :: xs).drop 24) k hlen
              simp only [List.get?_cons_succ, hr, List.drop_drop, List.length_drop,
                List.length_cons]
              have h24 : 24 + 24 * k = 24 * (k + 1) := by ring
              by_cases hc : 24 * k < xs.length + 1 - 24
              · rw [if_pos hc, if_pos (by omega), h24]
              · rw [if_neg hc, if_neg (by omega)]

/-- Aggregated record `k` is the column-wise mean of raw rows
`24k … min(24(k+1), N) - 1`. -/
theorem weatherAggregate_get? (w : List WeatherRow) (k : ℕ) :
    (weatherAggregate w).get? k =
      if 24 * k < w.length then some (chunkMean ((w.drop (24 * k)).take 24)) else none := by
  rw [weatherAggregate, List.get?_map, chunks24, chunksAux_get? w.length w k le_rfl]
  by_cases hc : 24 * k < w.length
  · rw [if_pos hc, if_pos hc]; rfl
  · rw [if_neg hc, if_neg hc]; rfl

theorem ffillAux_replicate_none (carry : Option ℚ) :
    ∀ n : ℕ, ffillAux carry (List.replicate n none) = List.replicate n carry := by
  intro n
  induction n with
  | zero => rfl
  | succ n ih => simp [List.replicate_succ, ffillAux, ih]

theorem ffillAux_replicate_none_append (rest : List (Option ℚ)) :
    ∀ n : ℕ, ffillAux none (List.replicate n none ++ rest) =
      List.replicate n none ++ ffillAux none rest := by
  intro n
  induction n with
  | zero => rfl
  | succ n ih => simp [List.replicate_succ, ffillAux, ih]

theorem scatterCarry_length (p : ℕ) :
    ∀ (rows : List FeatureRow) (ts hs ps rs vs ds : List (Option ℚ)),
      (scatterCarry p rows ts hs ps rs vs ds).length = rows.length := by
  intro rows
  induction rows with
  | nil => intro ts hs ps rs vs ds; rfl
  | cons r rest ih =>
      intro ts hs ps rs vs ds
      rw [scatterCarry]
      by_cases h : r.parcelle_id = p
      · rw [if_pos h]; simp [ih]
      · rw [if_neg h]; simp [ih]

theorem scatterInterp_length (p : ℕ) :
    ∀ (rows : List FeatureRow) (es gs : List (Option ℚ)),
      (scatterInterp p rows es gs).length = rows.length := by
  intro rows
  induction rows with
  | nil => intro es gs; rfl
  | cons r rest ih =>
      intro es gs
      rw [scatterInterp]
      by_cases h : r.parcelle_id = p
      · rw [if_pos h]; simp [ih]
      · rw [if_neg h]; simp [ih]

theorem gapFillCarry_length (rows : List FeatureRow) :
    (gapFillCarry rows).length = rows.length := by
  rw [gapFillCarry]
  generalize uniqueKeys (rows.map (·.parcelle_id)) = ps
  induction ps generalizing rows with
  | nil => rfl
  | cons p ps ih =>
      rw [List.foldl_cons, ih]
      rw [updateParcelleCarry, scatterCarry_length]

theorem gapFillInterp_length (rows : List FeatureRow) :
    (gapFillInterp rows).length = rows.length := by
  rw [gapFillInterp]
  generalize uniqueKeys (rows.map (·.parcelle_id)) = ps
  induction ps generalizing rows with
  | nil => rfl
  | cons p ps ih =>
      rw [List.foldl_cons, ih]
      rw [updateParcelleInterp, scatterInterp_length]

theorem fillRendementFinal_length (rows : List FeatureRow) :
    (fillRendementFinal rows).length = rows.length := by
  rw [fillRendementFinal, List.length_map]

theorem setup_ok_of_unindexed {s : AgriState}
    (hm : s.monitoring_indexed = false) (hw : s.weather_indexed = false)
    (hy : s.yield_indexed = false) :
    setup_temporal_indices s =
      .ok { s with monitoring_indexed := true, weather_indexed := true, yield_indexed := true } := by
  simp [setup_temporal_indices, setIndexMonitoring, setIndexWeather, setIndexYield,
    hm, hw, hy, Bind.bind, Except.bind]

theorem setup_error_of_indexed {s : AgriState} (hm : s.monitoring_indexed = true) :
    setup_temporal_indices s = .error "KeyError: None of [date] are in the columns (monitoring_data)" := by
  simp [setup_temporal_indices, setIndexMonitoring, hm, Bind.bind, Except.bind]

theorem setup_ok_inv {s s' : AgriState} (h : setup_temporal_indices s = .ok s') :
    s.monitoring_indexed = false ∧
      s' = { s with monitoring_indexed := true, weather_indexed := true, yield_indexed := true } := by
  cases hm : s.monitoring_indexed with
  | true =>
      rw [setup_error_of_indexed hm] at h
      cases h
  | false =>
      refine ⟨rfl, ?_⟩
      cases hw : s.weather_indexed with
      | true =>
          rw [setup_temporal_indices] at h
          simp [setIndexMonitoring, setIndexWeather, hm, hw, Bind.bind, Except.bind] at h
      | false =>
          cases hy : s.yield_indexed with
          | true =>
              rw [setup_temporal_indices] at h
              simp [setIndexMonitoring, setIndexWeather, setIndexYield, hm, hw, hy,
                Bind.bind, Except.bind] at h
          | false =>
              rw [setup_ok_of_unindexed hm hw hy] at h
              cases h
              rfl

theorem prepare_features_ok_state {s : AgriState} {p : AgriState × List FeatureRow}
    (h : prepare_features s = .ok p) : setup_temporal_indices s = .ok p.1 := by
  rw [prepare_features] at h
  cases hs : setup_temporal_indices s with
  | error e => rw [hs] at h; simp [Bind.bind, Except.bind] at h
  | ok s1 =>
      rw [hs] at h
      simp only [Bind.bind, Except.bind] at h
      cases hv : verify_temporal_consistency s1 with
      | none => rw [hv] at h; cases h
      | some r =>
          rw [hv] at h
          by_cases h2 : (mergeSoil s1.soil_data
              (mergeAsofWeather s1.monitoring_data s1.weather_data)).length =
              (mergeAsofWeather s1.monitoring_data s1.weather_data).length
          · rw [if_pos h2] at h
            by_cases h3 : (enrich_with_yield_history s1.yield_history
                (mergeSoil s1.soil_data (mergeAsofWeather s1.monitoring_data s1.weather_data))).length =
                (mergeSoil s1.soil_data (mergeAsofWeather s1.monitoring_data s1.weather_data)).length
            · rw [if_pos h3] at h
              cases h
              rfl
            · rw [if_neg h3] at h; cases h
          · rw [if_neg h2] at h; cases h

theorem prepare_features_error_of_indexed {s : AgriState}
    (hm : s.monitoring_indexed = true) : errB (prepare_features s) = true := by
  rw [prepare_features, setup_error_of_indexed hm]
  rfl

theorem verify_some_of_nonempty {s : AgriState} (h : s.monitoring_data ≠ []) :
    (verify_temporal_consistency s).map (fun r => r.length) = some 15 := by
  rw [verify_temporal_consistency]
  cases hd : s.monitoring_data with
  | nil => exact absurd hd h
  | cons m ms => rfl

/-- Claim C8: `analyze_yield_patterns` raises for a parcel with no yield
records, raises for a parcel with exactly one record (the decomposition
with period 1 needs at least 2 observations), and for a parcel with at
least 2 records returns trend/seasonal/resid/observed series whose length
is the parcel's yield-history length. -/
theorem analyze_yield_patterns_cases (ys : List YieldRow) (pid : ℕ) :
    (ys.filter (fun y => y.parcelle_id = pid) = [] →
        errB (analyze_yield_patterns ys pid) = true) ∧
    ((ys.filter (fun y => y.parcelle_id = pid)).length = 1 →
        errB (analyze_yield_patterns ys pid) = true) ∧
    (2 ≤ (ys.filter (fun y => y.parcelle_id = pid)).length →
        decompLengths ys pid = some
          ((ys.filter (fun y => y.parcelle_id = pid)).length,
           (ys.filter (fun y => y.parcelle_id = pid)).length,
           (ys.filter (fun y => y.parcelle_id = pid)).length,
           (ys.filter (fun y => y.parcelle_id = pid)).length)) := by
  refine ⟨?_, ?_, ?_⟩
  · intro he
    simp [analyze_yield_patterns, he, errB]
  · intro hl
    have hne : ys.filter (fun y => y.parcelle_id = pid) ≠ [] := by
      intro h0; rw [h0] at hl; simp at hl
    have hs : (sortByKey (fun y => y.date) (ys.filter (fun y => y.parcelle_id = pid))).length < 2 := by
      rw [sortByKey_length, hl]
      norm_num
    simp [analyze_yield_patterns, hne, seasonal_decompose_period1, hs, errB]
  · intro hl
    have hne : ys.filter (fun y => y.parcelle_id = pid) ≠ [] := by
      intro h0; rw [h0] at hl; simp at hl
    have hnot : ¬ (ys.filter (fun y => y.parcelle_id = pid)).length < 2 := by omega
    simp [decompLengths, analyze_yield_patterns, hne, seasonal_decompose_period1, hnot,
      sortByKey_length]

/-- Witness for `analyze_yield_patterns_cases` on the concrete yield
history `yieldsFix` (parcel 1: two records, parcel 2: one, parcel 3:
none). -/
theorem analyze_yield_patterns_cases_witness :
    decompLengths yieldsFix 1 = some (2, 2, 2, 2) ∧
    errB (analyze_yield_patterns yieldsFix 2) = true ∧
    errB (analyze_yield_patterns yieldsFix 3) = true :=
  ⟨(analyze_yield_patterns_cases yieldsFix 1).2.2 (by decide),
   (analyze_yield_patterns_cases yieldsFix 2).2.1 (by decide),
   (analyze_yield_patterns_cases yieldsFix 3).1 (by decide)⟩

/-- Claim C6: the composite risk score is the fixed-weight linear
combination `0.4·mean_stress + 0.3·stress_variability +
0.2·(1 − capacite_retention_eau) + 0.1·mean_temperature`; it is strictly
increasing in `mean_stress` and strictly decreasing in
`capacite_retention_eau`, the other inputs held fixed. -/
theorem risk_score_formula_monotone :
    (∀ ms sv cap mt : ℚ,
        risk_score ms sv cap mt = 0.4 * ms + 0.3 * sv + 0.2 * (1 - cap) + 0.1 * mt) ∧
    (∀ ms1 ms2 sv cap mt : ℚ, ms1 < ms2 →
        risk_score ms1 sv cap mt < risk_score ms2 sv cap mt) ∧
    (∀ ms sv cap1 cap2 mt : ℚ, cap1 < cap2 →
        risk_score ms sv cap2 mt < risk_score ms sv cap1 mt) := by
  refine ⟨fun ms sv cap mt => by rw [risk_score]; ring, ?_, ?_⟩
  · intro ms1 ms2 sv cap mt h
    simp only [risk_score]
    have h4 : ms1 * 0.4 < ms2 * 0.4 := by
      have : (0:ℚ) < 0.4 := by norm_num
      exact mul_lt_mul_of_pos_right h this
    linarith
  · intro ms sv cap1 cap2 mt h
    simp only [risk_score]
    have h2 : (1 - cap2) * 0.2 < (1 - cap1) * 0.2 := by
      have h0 : (0:ℚ) < 0.2 := by norm_num
      have h1 : (1 : ℚ) - cap2 < 1 - cap1 := by linarith
      exact mul_lt_mul_of_pos_right h1 h0
    linarith

/-- Witness for `risk_score_formula_monotone`: raising `mean_stress` from
1 to 2 raises the score; raising the water retention from 1/2 to 3/4
lowers it. -/
theorem risk_score_formula_monotone_witness :
    risk_score 1 0 (1/2) 0 < risk_score 2 0 (1/2) 0 ∧
    risk_score 1 0 (3/4) 0 < risk_score 1 0 (1/2) 0 :=
  ⟨risk_score_formula_monotone.2.1 1 2 0 (1/2) 0 (by norm_num),
   risk_score_formula_monotone.2.2 1 0 (1/2) (3/4) 0 (by norm_num)⟩

theorem mem_concatMap {α β : Type} (f : α → List β) (x : β) :
    ∀ l : List α, x ∈ concatMap f l ↔ ∃ a ∈ l, x ∈ f a := by
  intro l
  induction l with
  | nil => simp [concatMap]
  | cons a as ih => simp [concatMap, List.mem_append, ih]

theorem mergeAsofWeather_length (ms : List MonitoringRow) (ws : List WeatherRow) :
    (mergeAsofWeather ms ws).length = ms.length := by
  rw [mergeAsofWeather]
  simp [sortByKey_length]

theorem mem_mergeAsofWeather {ms : List MonitoringRow} {ws : List WeatherRow} {x : FeatureRow}
    (hx : x ∈ mergeAsofWeather ms ws) :
    ∃ m ∈ ms, x.parcelle_id = m.parcelle_id ∧ x.latitude = m.latitude ∧
      x.longitude = m.longitude ∧ x.date = m.date := by
  rw [mergeAsofWeather] at hx
  simp only [List.mem_map] at hx
  obtain ⟨m, hm, rfl⟩ := hx
  exact ⟨m, (mem_sortByKey _ _ _).mp hm, rfl, rfl, rfl, rfl⟩

theorem mergeSoil_length (soil : List SoilRow) (rows : List FeatureRow)
    (h : ∀ r ∈ rows, (soil.filter (fun t =>
        t.parcelle_id = r.parcelle_id ∧ t.latitude = r.latitude ∧
          t.longitude = r.longitude)).length ≤ 1) :
    (mergeSoil soil rows).length = rows.length := by
  rw [mergeSoil]
  apply concatMap_length_eq
  intro r hr
  rcases hf : soil.filter (fun t =>
      t.parcelle_id = r.parcelle_id ∧ t.latitude = r.latitude ∧ t.longitude = r.longitude) with
    _ | ⟨t, ts⟩
  · rw [hf]
    rfl
  · rw [hf]
    have hle := h r hr
    rw [hf] at hle
    simp only [List.length_cons] at hle
    simp only [List.length_map, List.length_cons]
    omega

theorem mem_mergeSoil {soil : List SoilRow} {rows : List FeatureRow} {x : FeatureRow}
    (hx : x ∈ mergeSoil soil rows) :
    ∃ r ∈ rows, x.date = r.date ∧ x.parcelle_id = r.parcelle_id := by
  rw [mergeSoil, mem_concatMap] at hx
  obtain ⟨r, hr, hxr⟩ := hx
  refine ⟨r, hr, ?_⟩
  rcases hf : soil.filter (fun t =>
      t.parcelle_id = r.parcelle_id ∧ t.latitude = r.latitude ∧ t.longitude = r.longitude) with
    _ | ⟨t, ts⟩ <;> rw [hf] at hxr
  · simp only [List.mem_singleton] at hxr
    subst hxr
    exact ⟨rfl, rfl⟩
  · simp only [List.mem_map] at hxr
    obtain ⟨t', _, rfl⟩ := hxr
    exact ⟨rfl, rfl⟩

theorem enrich_length (ys : List YieldRow) (rows : List FeatureRow)
    (h : ∀ r ∈ rows, (ys.filter (fun y =>
        y.date = r.date ∧ y.parcelle_id = r.parcelle_id)).length ≤ 1) :
    (enrich_with_yield_history ys rows).length = rows.length := by
  rw [enrich_with_yield_history]
  apply concatMap_length_eq
  intro r hr
  rcases hf : ys.filter (fun y => y.date = r.date ∧ y.parcelle_id = r.parcelle_id) with
    _ | ⟨y, tl⟩
  · rw [hf]
    rfl
  · rw [hf]
    have hle := h r hr
    rw [hf] at hle
    simp only [List.length_cons] at hle
    simp only [List.length_map, List.length_cons]
    omega

/-- Claim C4: when every monitoring row has at most one matching soil row
on (parcelle_id, latitude, longitude) and at most one matching
yield-history row on (date, parcelle_id), `prepare_features` (on a
freshly-loaded nonempty session) returns a FeatureTable with exactly one
row per monitoring row. -/
theorem prepare_features_row_count (s : AgriState)
    (hm : s.monitoring_indexed = false) (hw : s.weather_indexed = false)
    (hy : s.yield_indexed = false) (hne : s.monitoring_data ≠ [])
    (hsoil : ∀ m ∈ s.monitoring_data,
      (s.soil_data.filter (fun t => t.parcelle_id = m.parcelle_id ∧
        t.latitude = m.latitude ∧ t.longitude = m.longitude)).length ≤ 1)
    (hyield : ∀ m ∈ s.monitoring_data,
      (s.yield_history.filter (fun y => y.date = m.date ∧
        y.parcelle_id = m.parcelle_id)).length ≤ 1) :
    featureCount s = some s.monitoring_data.length := by
  have hv : verify_temporal_consistency
      { s with monitoring_indexed := true, weather_indexed := true, yield_indexed := true } ≠
        none := by
    intro h0
    have h15 := @verify_some_of_nonempty
      { s with monitoring_indexed := true, weather_indexed := true, yield_indexed := true } hne
    rw [h0] at h15
    cases h15
  rw [featureCount, prepare_features, setup_ok_of_unindexed hm hw hy]
  simp only [Bind.bind, Except.bind]
  cases hvr : verify_temporal_consistency
      { s with monitoring_indexed := true, weather_indexed := true, yield_indexed := true } with
  | none => exact absurd hvr hv
  | some r =>
      have h2 : (mergeSoil s.soil_data (mergeAsofWeather s.monitoring_data s.weather_data)).length =
          (mergeAsofWeather s.monitoring_data s.weather_data).length := by
        apply mergeSoil_length
        intro x hx
        obtain ⟨m, hmm, hp, hla, hlo, _⟩ := mem_mergeAsofWeather hx
        rw [hp, hla, hlo]
        exact hsoil m hmm
      have h3 : (enrich_with_yield_history s.yield_history
          (mergeSoil s.soil_data (mergeAsofWeather s.monitoring_data s.weather_data))).length =
          (mergeSoil s.soil_data (mergeAsofWeather s.monitoring_data s.weather_data)).length := by
        apply enrich_length
        intro x hx
        obtain ⟨r', hr', hd, hp⟩ := mem_mergeSoil hx
        obtain ⟨m, hmm, hp2, _, _, hd2⟩ := mem_mergeAsofWeather hr'
        rw [hd, hp, hp2, hd2]
        exact hyield m hmm
      rw [if_pos h2, if_pos h3]
      simp only [fillRendementFinal_length, gapFillInterp_length, gapFillCarry_length, h3, h2,
        mergeAsofWeather_length]

/-- Witness for `prepare_features_row_count` at the concrete session
`sampleState` (one monitoring row, unique join keys). -/
theorem prepare_features_row_count_witness :
    featureCount sampleState = some sampleState.monitoring_data.length :=
  prepare_features_row_count sampleState (by decide) (by decide) (by decide) (by decide)
    (by decide) (by decide)

/-- Claim C9 (counterexample): with monitoring culture 1 and a matching
yield record of culture 2, the FeatureTable's culture is 2 — the merge
drops Monitoring's `culture` and keeps YieldHistory's, the opposite of
the claim. -/
theorem culture_from_monitoring_cex :
    featuresCultures sampleState = some [some 2] ∧
    sampleState.monitoring_data.map (·.culture) = [1] ∧
    (some 2 : Option ℕ) ≠ some 1 := by
  refine ⟨by decide, by decide, by decide⟩

/-- Claim C9 (amended): in the table built by `_enrich_with_yield_history`
(and hence in the FeatureTable), the `culture` of every row is the
matching YieldHistory record's culture — null when the row has no
matching yield record; the Monitoring `culture` column is dropped before
the merge and never survives. -/
theorem enrich_culture_from_yield (ys : List YieldRow) (rows : List FeatureRow)
    (h : ∀ r ∈ rows, (ys.filter (fun y =>
        y.date = r.date ∧ y.parcelle_id = r.parcelle_id)).length ≤ 1) :
    ∀ x ∈ enrich_with_yield_history ys rows,
      x.culture = ((ys.filter (fun y =>
        y.date = x.date ∧ y.parcelle_id = x.parcelle_id)).head?).map (·.culture) := by
  intro x hx
  rw [enrich_with_yield_history, mem_concatMap] at hx
  obtain ⟨r, hr, hxr⟩ := hx
  rcases hf : ys.filter (fun y => y.date = r.date ∧ y.parcelle_id = r.parcelle_id) with
    _ | ⟨y, tl⟩ <;> rw [hf] at hxr
  · simp only [List.mem_singleton] at hxr
    subst hxr
    simp only
    rw [hf]
    rfl
  · have hle := h r hr
    rw [hf] at hle
    simp only [List.length_cons] at hle
    have htl : tl = [] := by
      have := List.length_eq_zero.mp (by omega : tl.length = 0)
      exact this
    subst htl
    simp only [List.map_cons, List.map_nil, List.mem_singleton] at hxr
    subst hxr
    simp only
    rw [hf]
    rfl

/-- Witness for `enrich_culture_from_yield` on the concrete one-row merge
of `sampleState`'s yield history. -/
theorem enrich_culture_from_yield_witness :
    enrichedRow.culture = ((sampleState.yield_history.filter (fun y =>
        y.date = enrichedRow.date ∧ y.parcelle_id = enrichedRow.parcelle_id)).head?).map
      (·.culture) :=
  enrich_culture_from_yield sampleState.yield_history enrichRows (by decide) enrichedRow
    (by decide)

theorem filterMap_length_of_isSome {α β : Type} (f : α → Option β) :
    ∀ l : List α, (∀ x ∈ l, (f x).isSome) → (l.filterMap f).length = l.length := by
  intro l
  induction l with
  | nil => intro _; rfl
  | cons x xs ih =>
      intro h
      have hx := h x (by simp)
      cases hfx : f x with
      | none => rw [hfx] at hx; cases hx
      | some b =>
          rw [List.filterMap_cons, hfx, List.length_cons, ih (fun y hy => h y (by simp [hy])),
            List.length_cons]

theorem soil_filter_len {soil : List SoilRow}
    (hn : (soil.map (·.parcelle_id)).Nodup) (p : ℕ) :
    (soil.filter (fun t => t.parcelle_id = p)).length ≤ 1 := by
  induction soil with
  | nil => simp
  | cons t ts ih =>
      rw [List.map_cons, List.nodup_cons] at hn
      obtain ⟨ht, hts⟩ := hn
      by_cases hp : t.parcelle_id = p
      · have hnil : ts.filter (fun u => u.parcelle_id = p) = [] := by
          rw [List.filter_eq_nil_iff]
          intro u hu
          simp only [decide_eq_true_eq]
          intro he
          exact ht (List.mem_map.mpr ⟨u, hu, by rw [he, hp]⟩)
        simp [List.filter_cons, hp, hnil]
      · simp only [List.filter_cons, decide_eq_true_eq]
        rw [if_neg hp]
        exact ih hts

theorem joinSoil_eq_map (soil : List SoilRow) :
    ∀ rows : List RiskRow,
      (∀ m ∈ rows, (soil.filter (fun t => t.parcelle_id = m.parcelle_id)).length ≤ 1) →
      joinSoilRetention soil rows = rows.map (withCap soil) := by
  intro rows
  induction rows with
  | nil => intro _; rfl
  | cons m ms ih =>
      intro h
      rw [joinSoilRetention, concatMap, List.map_cons]
      rw [show concatMap (fun m => match soil.filter (fun t => t.parcelle_id = m.parcelle_id) with
          | [] => [{ m with capacite_retention_eau := none }]
          | t :: ts => (t :: ts).map
              (fun t' => { m with capacite_retention_eau := t'.capacite_retention_eau })) ms =
          joinSoilRetention soil ms from rfl]
      rw [ih (fun x hx => h x (by simp [hx]))]
      rcases hf : soil.filter (fun t => t.parcelle_id = m.parcelle_id) with _ | ⟨t, ts⟩
      · rw [withCap, hf]
        rfl
      · have hle := h m (by simp)
        rw [hf] at hle
        simp only [List.length_cons] at hle
        have hts : ts = [] := List.length_eq_zero.mp (by omega)
        subst hts
        rw [withCap, hf]
        rfl

theorem withCap_parcelle (soil : List SoilRow) (m : RiskRow) :
    (withCap soil m).parcelle_id = m.parcelle_id := by
  rw [withCap]
  rcases hf : soil.filter (fun t => t.parcelle_id = m.parcelle_id) with _ | ⟨t, ts⟩ <;>
    rw [hf]

theorem withCap_sv (soil : List SoilRow) (m : RiskRow) :
    (withCap soil m).stress_variability = m.stress_variability := by
  rw [withCap]
  rcases hf : soil.filter (fun t => t.parcelle_id = m.parcelle_id) with _ | ⟨t, ts⟩ <;>
    rw [hf]

theorem withCap_mean_stress (soil : List SoilRow) (m : RiskRow) :
    (withCap soil m).mean_stress = m.mean_stress := by
  rw [withCap]
  rcases hf : soil.filter (fun t => t.parcelle_id = m.parcelle_id) with _ | ⟨t, ts⟩ <;>
    rw [hf]

theorem addRiskScore_parcelle (m : RiskRow) :
    (addRiskScore m).parcelle_id = m.parcelle_id := by
  rw [addRiskScore]
  rcases m.stress_variability with _ | sv <;> rcases m.capacite_retention_eau with _ | cap <;> rfl

theorem addRiskScore_sv (m : RiskRow) :
    (addRiskScore m).stress_variability = m.stress_variability := by
  rw [addRiskScore]
  rcases m.stress_variability with _ | sv <;> rcases m.capacite_retention_eau with _ | cap <;> rfl

theorem addRiskScore_risk_none {m : RiskRow} (h : m.stress_variability = none) :
    (addRiskScore m).risk_score = none := by
  rw [addRiskScore, h]

theorem addRiskScore_risk_some {m : RiskRow} (h1 : m.stress_variability.isSome)
    (h2 : m.capacite_retention_eau.isSome) : (addRiskScore m).risk_score.isSome := by
  rw [addRiskScore]
  rcases hsv : m.stress_variability with _ | sv
  · rw [hsv] at h1; cases h1
  · rcases hcap : m.capacite_retention_eau with _ | cap
    · rw [hcap] at h2; cases h2
    · rfl

theorem riskGroupRow_parcelle (data : List FeatureRow) (p : ℕ) :
    (riskGroupRow data p).parcelle_id = p := rfl

theorem composite_parcelle (soil : List SoilRow) (data : List FeatureRow) (p : ℕ) :
    (addRiskScore (withCap soil (riskGroupRow data p))).parcelle_id = p := by
  rw [addRiskScore_parcelle, withCap_parcelle, riskGroupRow_parcelle]

theorem calc_ok_form {soil : List SoilRow} {data : List FeatureRow} {l : List RiskRow}
    (hn : (soil.map (·.parcelle_id)).Nodup)
    (h : calculate_risk_metrics soil data = .ok l) :
    l = (sortByKey (fun (n : ℕ) => (n : ℚ)) (uniqueKeys (data.map (·.parcelle_id)))).map
        (fun p => addRiskScore (withCap soil (riskGroupRow data p))) := by
  rw [calculate_risk_metrics] at h
  by_cases hA : data.any (fun r => r.stress_hydrique.isNone || r.temperature.isNone) = true
  · rw [if_pos hA] at h; cases h
  · rw [if_neg hA] at h
    by_cases hB : soil.any (fun t => t.capacite_retention_eau.isNone) = true
    · rw [if_pos hB] at h; cases h
    · rw [if_neg hB] at h
      simp only at h
      rw [joinSoil_eq_map soil _ (fun m _ => soil_filter_len hn m.parcelle_id)] at h
      by_cases hC : (((sortByKey (fun (n : ℕ) => (n : ℚ))
          (uniqueKeys (data.map (·.parcelle_id)))).map (riskGroupRow data)).map
            (withCap soil)).any (fun m => m.capacite_retention_eau.isNone) = true
      · rw [if_pos hC] at h; cases h
      · rw [if_neg hC] at h
        cases h
        rw [List.map_map, List.map_map]
        rfl

theorem any_null_iff (data : List FeatureRow) :
    data.any (fun r => r.stress_hydrique.isNone || r.temperature.isNone) = true ↔
      ∃ r ∈ data, r.stress_hydrique = none ∨ r.temperature = none := by
  simp [List.any_eq_true, Option.isNone_iff_eq_none]

theorem any_soil_null_iff (soil : List SoilRow) :
    soil.any (fun t => t.capacite_retention_eau.isNone) = true ↔
      ∃ t ∈ soil, t.capacite_retention_eau = none := by
  simp [List.any_eq_true, Option.isNone_iff_eq_none]

theorem withCap_cap_none_iff {soil : List SoilRow}
    (hB : ∀ t ∈ soil, t.capacite_retention_eau ≠ none) (m : RiskRow) :
    (withCap soil m).capacite_retention_eau = none ↔
      ∀ t ∈ soil, t.parcelle_id ≠ m.parcelle_id := by
  rw [withCap]
  rcases hf : soil.filter (fun t => t.parcelle_id = m.parcelle_id) with _ | ⟨t, ts⟩ <;> rw [hf]
  · simp only [true_iff]
    intro t ht he
    have h0 := List.filter_eq_nil_iff.mp hf t ht
    simp only [decide_eq_true_eq] at h0
    exact h0 he
  · have hmem : t ∈ soil.filter (fun u => u.parcelle_id = m.parcelle_id) := by
      rw [hf]
      exact List.mem_cons_self t ts
    obtain ⟨hts, hpd⟩ := List.mem_filter.mp hmem
    simp only [decide_eq_true_eq] at hpd
    constructor
    · intro hc
      exact absurd hc (hB t hts)
    · intro hall
      exact absurd hpd (hall t hts)

theorem mem_sortedParcels (data : List FeatureRow) (p : ℕ) :
    p ∈ sortByKey (fun (n : ℕ) => (n : ℚ)) (uniqueKeys (data.map (·.parcelle_id))) ↔
      p ∈ data.map (·.parcelle_id) := by
  rw [mem_sortByKey, mem_uniqueKeys]

theorem joined_any_iff (soil : List SoilRow) (data : List FeatureRow)
    (hB : ∀ t ∈ soil, t.capacite_retention_eau ≠ none) :
    (((sortByKey (fun (n : ℕ) => (n : ℚ)) (uniqueKeys (data.map (·.parcelle_id)))).map
        (riskGroupRow data)).map (withCap soil)).any
          (fun m => m.capacite_retention_eau.isNone) = true ↔
      ∃ r ∈ data, ∀ t ∈ soil, t.parcelle_id ≠ r.parcelle_id := by
  rw [List.map_map, List.any_eq_true]
  constructor
  · rintro ⟨m, hm, hc⟩
    simp only [List.mem_map, Function.comp] at hm
    obtain ⟨p, hp, rfl⟩ := hm
    rw [Option.isNone_iff_eq_none] at hc
    have := (withCap_cap_none_iff hB (riskGroupRow data p)).mp hc
    rw [riskGroupRow_parcelle] at this
    obtain ⟨r, hr, rfl⟩ := List.mem_map.mp ((mem_sortedParcels data p).mp hp)
    exact ⟨r, hr, this⟩
  · rintro ⟨r, hr, hall⟩
    refine ⟨withCap soil (riskGroupRow data r.parcelle_id), ?_, ?_⟩
    · simp only [List.mem_map, Function.comp]
      exact ⟨r.parcelle_id, (mem_sortedParcels data _).mpr (List.mem_map.mpr ⟨r, hr, rfl⟩), rfl⟩
    · rw [Option.isNone_iff_eq_none]
      apply (withCap_cap_none_iff hB (riskGroupRow data r.parcelle_id)).mpr
      rw [riskGroupRow_parcelle]
      exact hall

theorem calc_spec_aux (soil : List SoilRow) (data : List FeatureRow) (p : ℕ)
    (hn : (soil.map (·.parcelle_id)).Nodup) :
    (errB (calculate_risk_metrics soil data) = true ↔
      (∃ r ∈ data, r.stress_hydrique = none ∨ r.temperature = none) ∨
      (∃ t ∈ soil, t.capacite_retention_eau = none) ∨
      (∃ r ∈ data, ∀ t ∈ soil, t.parcelle_id ≠ r.parcelle_id)) ∧
    (errB (calculate_risk_metrics soil data) = false →
      riskCount soil data p = some (if p ∈ data.map (·.parcelle_id) then 1 else 0)) := by
  constructor
  · rw [calculate_risk_metrics]
    by_cases hA : data.any (fun r => r.stress_hydrique.isNone || r.temperature.isNone) = true
    · rw [if_pos hA]
      exact ⟨fun _ => Or.inl ((any_null_iff data).mp hA), fun _ => rfl⟩
    · rw [if_neg hA]
      by_cases hB : soil.any (fun t => t.capacite_retention_eau.isNone) = true
      · rw [if_pos hB]
        exact ⟨fun _ => Or.inr (Or.inl ((any_soil_null_iff soil).mp hB)), fun _ => rfl⟩
      · rw [if_neg hB]
        have hB' : ∀ t ∈ soil, t.capacite_retention_eau ≠ none := by
          intro t ht hc
          exact hB ((any_soil_null_iff soil).mpr ⟨t, ht, hc⟩)
        simp only
        rw [joinSoil_eq_map soil _ (fun m _ => soil_filter_len hn m.parcelle_id)]
        by_cases hC : (((sortByKey (fun (n : ℕ) => (n : ℚ))
            (uniqueKeys (data.map (·.parcelle_id)))).map (riskGroupRow data)).map
              (withCap soil)).any (fun m => m.capacite_retention_eau.isNone) = true
        · rw [if_pos hC]
          exact ⟨fun _ => Or.inr (Or.inr ((joined_any_iff soil data hB').mp hC)), fun _ => rfl⟩
        · rw [if_neg hC]
          constructor
          · intro hfalse
            exact absurd hfalse (by simp [errB])
          · rintro (hA' | hB'' | hC')
            · exact absurd ((any_null_iff data).mpr hA') hA
            · exact absurd ((any_soil_null_iff soil).mpr hB'') hB
            · exact absurd ((joined_any_iff soil data hB').mpr hC') hC
  · intro hok
    cases hcalc : calculate_risk_metrics soil data with
    | error e =>
        rw [hcalc] at hok
        simp [errB] at hok
    | ok l =>
        rw [riskCount, hcalc]
        show some ((l.map (·.parcelle_id)).count p) =
          some (if p ∈ data.map (·.parcelle_id) then 1 else 0)
        have hids : ∀ L : List ℕ,
            (L.map (fun q => addRiskScore (withCap soil (riskGroupRow data q)))).map
              (·.parcelle_id) = L := by
          intro L
          induction L with
          | nil => rfl
          | cons a as ih => simp [composite_parcelle, ih]
        rw [calc_ok_form hn hcalc, hids]
        have hperm := sortByKey_perm (fun (n : ℕ) => (n : ℚ))
          (uniqueKeys (data.map (·.parcelle_id)))
        rw [hperm.count_eq]
        by_cases hp : p ∈ data.map (·.parcelle_id)
        · rw [if_pos hp,
            List.count_eq_one_of_mem (nodup_uniqueKeys _) ((mem_uniqueKeys p _).mpr hp)]
        · rw [if_neg hp,
            List.count_eq_zero_of_not_mem (fun hmem => hp ((mem_uniqueKeys p _).mp hmem))]

/-- Claim C5: `calculate_risk_metrics` raises exactly when some
`stress_hydrique` or `temperature` value of its input is null, or some
soil record's `capacite_retention_eau` is null, or some parcel of the
input has no soil record at all; when it succeeds it returns exactly one
row per distinct `parcelle_id` of the input.  (The soil table has one
record per parcel — its ids are assumed distinct, per the data model.) -/
theorem calculate_risk_metrics_spec (soil : List SoilRow) (data : List FeatureRow) (p : ℕ)
    (hn : (soil.map (·.parcelle_id)).Nodup) :
    (errB (calculate_risk_metrics soil data) = true ↔
      (∃ r ∈ data, r.stress_hydrique = none ∨ r.temperature = none) ∨
      (∃ t ∈ soil, t.capacite_retention_eau = none) ∨
      (∃ r ∈ data, ∀ t ∈ soil, t.parcelle_id ≠ r.parcelle_id)) ∧
    (errB (calculate_risk_metrics soil data) = false →
      riskCount soil data p = some (if p ∈ data.map (·.parcelle_id) then 1 else 0)) :=
  calc_spec_aux soil data p hn

/-- Witness for `calculate_risk_metrics_spec` at the concrete tables
`riskSoil`/`riskData` (no nulls, both parcels covered). -/
theorem calculate_risk_metrics_spec_witness :
    (errB (calculate_risk_metrics riskSoil riskData) = true ↔
      (∃ r ∈ riskData, r.stress_hydrique = none ∨ r.temperature = none) ∨
      (∃ t ∈ riskSoil, t.capacite_retention_eau = none) ∨
      (∃ r ∈ riskData, ∀ t ∈ riskSoil, t.parcelle_id ≠ r.parcelle_id)) ∧
    (errB (calculate_risk_metrics riskSoil riskData) = false →
      riskCount riskSoil riskData 1 = some (if 1 ∈ riskData.map (·.parcelle_id) then 1 else 0)) :=
  calculate_risk_metrics_spec riskSoil riskData 1 (by decide)

/-- Claim C10: on an input with no null `stress_hydrique`/`temperature`,
distinct soil ids, and soil coverage of every parcel,
`calculate_risk_metrics` does not raise; the result row of a parcel with
exactly one input row has a null `stress_variability` (pandas sample
standard deviation of one value) and consequently a null `risk_score`,
while a parcel with at least two rows gets numeric values for both. -/
theorem single_row_parcel_null_risk (soil : List SoilRow) (data : List FeatureRow) (p q : ℕ)
    (hn : (soil.map (·.parcelle_id)).Nodup)
    (hs : ∀ r ∈ data, r.stress_hydrique.isSome ∧ r.temperature.isSome)
    (hcap : ∀ t ∈ soil, t.capacite_retention_eau.isSome)
    (hsoil : ∀ r ∈ data, ∃ t ∈ soil, t.parcelle_id = r.parcelle_id) :
    errB (calculate_risk_metrics soil data) = false ∧
    ((data.filter (fun r => r.parcelle_id = p)).length = 1 →
      (riskFor soil data p).map (fun m => (m.stress_variability, m.risk_score)) =
        some (none, none)) ∧
    (2 ≤ (data.filter (fun r => r.parcelle_id = q)).length →
      (riskFor soil data q).map (fun m => (m.stress_variability.isSome, m.risk_score.isSome)) =
        some (true, true)) := by
  have herr : errB (calculate_risk_metrics soil data) = false := by
    cases hb : errB (calculate_risk_metrics soil data) with
    | false => rfl
    | true =>
        exfalso
        rcases (calc_spec_aux soil data 0 hn).1.mp hb with hA | hB | hC
        · obtain ⟨r, hr, hcase⟩ := hA
          rcases hcase with h1 | h1
          · have h2 := (hs r hr).1
            rw [h1] at h2
            cases h2
          · have h2 := (hs r hr).2
            rw [h1] at h2
            cases h2
        · obtain ⟨t, ht, h1⟩ := hB
          have h2 := hcap t ht
          rw [h1] at h2
          cases h2
        · obtain ⟨r, hr, hall⟩ := hC
          obtain ⟨t, ht, he⟩ := hsoil r hr
          exact hall t ht he
  obtain ⟨l, hcalc⟩ : ∃ l, calculate_risk_metrics soil data = .ok l := by
    cases hc : calculate_risk_metrics soil data with
    | error e =>
        rw [hc] at herr
        simp [errB] at herr
    | ok l => exact ⟨l, rfl⟩
  have hrow : ∀ u : ℕ, u ∈ data.map (·.parcelle_id) →
      riskFor soil data u = some (addRiskScore (withCap soil (riskGroupRow data u))) := by
    intro u hu
    unfold riskFor
    rw [hcalc]
    show (l.filter (fun m => m.parcelle_id = u)).head? =
      some (addRiskScore (withCap soil (riskGroupRow data u)))
    rw [calc_ok_form hn hcalc, List.filter_map]
    have hfc : ((sortByKey (fun (n : ℕ) => (n : ℚ))
        (uniqueKeys (data.map (·.parcelle_id)))).filter
          ((fun m => decide (m.parcelle_id = u)) ∘
            (fun v => addRiskScore (withCap soil (riskGroupRow data v))))) =
        ((sortByKey (fun (n : ℕ) => (n : ℚ))
          (uniqueKeys (data.map (·.parcelle_id)))).filter (fun v => v = u)) :=
      List.filter_congr (fun a _ => by simp [Function.comp, composite_parcelle])
    rw [hfc]
    have hnod : (sortByKey (fun (n : ℕ) => (n : ℚ))
        (uniqueKeys (data.map (·.parcelle_id)))).Nodup :=
      ((sortByKey_perm _ _).nodup_iff).mpr (nodup_uniqueKeys _)
    rw [filter_eq_singleton_of_nodup hnod ((mem_sortedParcels data u).mpr hu)]
    rfl
  refine ⟨herr, ?_, ?_⟩
  · intro hp1
    have hpmem : p ∈ data.map (·.parcelle_id) := by
      rcases hf : data.filter (fun r => r.parcelle_id = p) with _ | ⟨r, rs⟩
      · rw [hf] at hp1
        cases hp1
      · have hrmem : r ∈ data.filter (fun r => r.parcelle_id = p) := by
          rw [hf]
          exact List.mem_cons_self r rs
        obtain ⟨hrd, hrp⟩ := List.mem_filter.mp hrmem
        simp only [decide_eq_true_eq] at hrp
        exact List.mem_map.mpr ⟨r, hrd, hrp⟩
    have hlen : ((data.filter (fun r => r.parcelle_id = p)).filterMap
        (·.stress_hydrique)).length = 1 := by
      rw [filterMap_length_of_isSome (·.stress_hydrique) _
        (fun x hx => (hs x (List.mem_of_mem_filter hx)).1), hp1]
    have hsv0 : (withCap soil (riskGroupRow data p)).stress_variability = none := by
      rw [withCap_sv]
      show sampleStd ((data.filter (fun r => r.parcelle_id = p)).filterMap
        (·.stress_hydrique)) = none
      rw [sampleStd, hlen]
      rfl
    rw [hrow p hpmem]
    simp [addRiskScore_sv, hsv0, addRiskScore_risk_none hsv0]
  · intro hq2
    have hqmem : q ∈ data.map (·.parcelle_id) := by
      rcases hf : data.filter (fun r => r.parcelle_id = q) with _ | ⟨r, rs⟩
      · rw [hf] at hq2
        cases hq2
      · have hrmem : r ∈ data.filter (fun r => r.parcelle_id = q) := by
          rw [hf]
          exact List.mem_cons_self r rs
        obtain ⟨hrd, hrp⟩ := List.mem_filter.mp hrmem
        simp only [decide_eq_true_eq] at hrp
        exact List.mem_map.mpr ⟨r, hrd, hrp⟩
    have hlen : ((data.filter (fun r => r.parcelle_id = q)).filterMap
        (·.stress_hydrique)).length = (data.filter (fun r => r.parcelle_id = q)).length :=
      filterMap_length_of_isSome (·.stress_hydrique) _
        (fun x hx => (hs x (List.mem_of_mem_filter hx)).1)
    have hsv1 : (withCap soil (riskGroupRow data q)).stress_variability.isSome := by
      rw [withCap_sv]
      show (sampleStd ((data.filter (fun r => r.parcelle_id = q)).filterMap
        (·.stress_hydrique))).isSome
      rw [sampleStd, if_pos (by rw [hlen]; exact hq2)]
      rfl
    have hcap1 : (withCap soil (riskGroupRow data q)).capacite_retention_eau.isSome := by
      rw [withCap]
      rcases hf : soil.filter (fun t =>
          t.parcelle_id = (riskGroupRow data q).parcelle_id) with _ | ⟨t, ts⟩ <;> rw [hf]
      · exfalso
        obtain ⟨r, hrd, hrq⟩ := List.mem_map.mp hqmem
        obtain ⟨t, ht, htr⟩ := hsoil r hrd
        have h0 := List.filter_eq_nil_iff.mp hf t ht
        simp only [decide_eq_true_eq, riskGroupRow_parcelle] at h0
        exact h0 (by rw [htr, hrq])
      · have htmem : t ∈ soil.filter (fun u =>
            u.parcelle_id = (riskGroupRow data q).parcelle_id) := by
          rw [hf]
          exact List.mem_cons_self t ts
        exact hcap t (List.mem_of_mem_filter htmem)
    rw [hrow q hqmem]
    simp [addRiskScore_sv, hsv1, addRiskScore_risk_some hsv1 hcap1]

/-- Witness for `single_row_parcel_null_risk` at the concrete tables
`riskSoil`/`riskData` (parcel 2 has exactly one row, parcel 1 has two). -/
theorem single_row_parcel_null_risk_witness :
    errB (calculate_risk_metrics riskSoil riskData) = false ∧
    ((riskData.filter (fun r => r.parcelle_id = 2)).length = 1 →
      (riskFor riskSoil riskData 2).map (fun m => (m.stress_variability, m.risk_score)) =
        some (none, none)) ∧
    (2 ≤ (riskData.filter (fun r => r.parcelle_id = 1)).length →
      (riskFor riskSoil riskData 1).map
        (fun m => (m.stress_variability.isSome, m.risk_score.isSome)) =
        some (true, true)) :=
  single_row_parcel_null_risk riskSoil riskData 2 1 (by decide) (by decide) (by decide)
    (by decide)

/-- Claim C1 (the code at the failing input): one day of hourly raw
weather is aggregated into `ceil(24/24) = 1` record whose numeric fields
are the block means (temperatures `0…23` average to `23/2`), but whose
date is the raw mean timestamp `23/48` of a day (11:30), NOT that
timestamp normalized to a date at midnight — `pd.to_datetime` with a
`format` argument does not truncate an existing timestamp. -/
theorem weather_aggregator_midnight_bug :
    (weatherAggregate hourlyDay).length = (hourlyDay.length + 23) / 24 ∧
    (weatherAggregate hourlyDay).map (·.date) = [23 / 48] ∧
    (weatherAggregate hourlyDay).map (·.temperature) = [23 / 2] ∧
    specNormalizeToMidnight (23 / 48) ≠ (23 / 48 : ℚ) := by
  refine ⟨by decide, by decide, by decide, by decide⟩

/-- Claim C3 (counterexample): with valid values `20, 50, 90` at positions
`2, 5, 9`, the Gap Filler puts the value at 5 (not the value at 2) at
position 3, and the value at 9 (not the value at 5) at position 6 —
backward fill runs first, so interior gaps take the NEXT valid value. -/
theorem gap_filler_positions_cex :
    (carryFill gapCol).get? 3 = some (some 50) ∧
    (carryFill gapCol).get? 3 ≠ some (some 20) ∧
    (carryFill gapCol).get? 6 = some (some 90) ∧
    (carryFill gapCol).get? 6 ≠ some (some 50) := by
  refine ⟨by decide, by decide, by decide, by decide⟩

/-- Claim C3 (amended): for a parcel slice with valid values `a, b, c`
exactly at positions 2, 5 and 9, the carry fill (backward fill first, then
forward fill) assigns positions 0–2 the value at 2, positions 3–5 the
value at 5, positions 6–9 the value at 9, and every position beyond 9 the
value at 9. -/
theorem gap_filler_pattern (a b c : ℚ) (n : ℕ) :
    carryFill ([none, none, some a, none, none, some b, none, none, none, some c] ++
        List.replicate n none) =
      [some a, some a, some a, some b, some b, some b, some c, some c, some c, some c] ++
        List.replicate n (some c) := by
  have h1 : bfill ([none, none, some a, none, none, some b, none, none, none, some c] ++
      List.replicate n none) =
      [some a, some a, some a, some b, some b, some b, some c, some c, some c, some c] ++
        List.replicate n none := by
    rw [bfill, ffill, List.reverse_append, List.reverse_replicate]
    rw [show ([none, none, some a, none, none, some b, none, none, none, some c] :
          List (Option ℚ)).reverse =
        [some c, none, none, none, some b, none, none, some a, none, none] from rfl]
    rw [ffillAux_replicate_none_append]
    rw [show ffillAux none [some c, none, none, none, some b, none, none, some a, none, none] =
        [some c, some c, some c, some c, some b, some b, some b, some a, some a, some a] from rfl]
    rw [List.reverse_append, List.reverse_replicate]
    rfl
  rw [carryFill, h1, ffill]
  simp only [List.cons_append, ffillAux, List.nil_append, List.append_eq]
  rw [ffillAux_replicate_none]

/-- Witness for `gap_filler_pattern` at the concrete values 20, 50, 90
with two trailing rows. -/
theorem gap_filler_pattern_witness :
    carryFill ([none, none, some 20, none, none, some 50, none, none, none, some 90] ++
        List.replicate 2 none) =
      [some 20, some 20, some 20, some 50, some 50, some 50, some 90, some 90, some 90,
        some 90] ++ List.replicate 2 (some 90) :=
  gap_filler_pattern 20 50 90 2

/-- Claim C7 (counterexample): on a session whose monitoring table is
empty, the temporal consistency check does not produce a report — the
source raises `ValueError` from `pd.date_range(NaT, NaT)` in the
missing-dates check, so it is not true that it "never raises, for every
input". -/
theorem verify_raises_on_empty_monitoring_cex :
    verify_temporal_consistency stateEmptyMon = none ∧
    stateEmptyMon.monitoring_data = [] := by
  refine ⟨by decide, by decide⟩

/-- Claim C7 (amended): for every session with a nonempty monitoring
table the temporal consistency check produces its 15-line report (it
mutates nothing and raises nothing; `prepare_features` discards the report
and proceeds); with monitoring range `[2021-01-01, 2021-12-31]` (days 1
and 365) the monitoring-vs-weather line reports OK for weather range
`[2021-01-02, 2021-12-30]` and `Incohérence détectée` when the weather
range starts on 2021-01-05. -/
theorem verify_temporal_consistency_report :
    (∀ s : AgriState, s.monitoring_data ≠ [] →
        (verify_temporal_consistency s).map (fun r => r.length) = some 15) ∧
    (verify_temporal_consistency stateTolOK).map (fun r => r.get? 6) =
      some (some "   → OK") ∧
    (verify_temporal_consistency stateTolBad).map (fun r => r.get? 6) =
      some (some "   → Incohérence détectée") := by
  refine ⟨fun s h => verify_some_of_nonempty h, by decide, by decide⟩

/-- Witness for `verify_temporal_consistency_report` at the concrete
session `stateTolOK`. -/
theorem verify_temporal_consistency_report_witness :
    (verify_temporal_consistency stateTolOK).map (fun r => r.length) = some 15 :=
  verify_temporal_consistency_report.1 stateTolOK (by decide)

/-- Claim C2 (counterexample): on a freshly-loaded session the first
`prepare_features` call succeeds but leaves the session state changed
(the source tables are re-indexed in place), and a second call raises
instead of returning the same FeatureTable. -/
theorem prepare_features_not_idempotent_cex :
    errB (prepare_features sampleState) = false ∧
    firstState sampleState ≠ some sampleState ∧
    errB (secondCall sampleState) = true := by
  refine ⟨by decide, by decide, by decide⟩

/-- Claim C2 (amended): `prepare_features` is not pure over the Source
Tables — a successful call consumes the `date` column of
`monitoring_data`, `weather_data` and `yield_history` into their indices
(modelled by the `…_indexed` flags), and a second call on the resulting
session always fails with a `KeyError`. -/
theorem prepare_features_second_call_fails :
    ∀ s : AgriState, (firstState s).isSome = true →
      s.monitoring_indexed = false ∧
      (firstState s).map (·.monitoring_indexed) = some true ∧
      (firstState s).map (fun s' => errB (prepare_features s')) = some true := by
  intro s h
  cases hp : prepare_features s with
  | error e => simp [firstState, hp] at h
  | ok p =>
      obtain ⟨hm, hs'⟩ := setup_ok_inv (prepare_features_ok_state hp)
      refine ⟨hm, ?_, ?_⟩
      · simp [firstState, hp, hs']
      · have hmi : p.1.monitoring_indexed = true := by rw [hs']
        simp [firstState, hp, prepare_features_error_of_indexed hmi]

/-- Witness for `prepare_features_second_call_fails` at the concrete
session `sampleState`. -/
theorem prepare_features_second_call_fails_witness :
    sampleState.monitoring_indexed = false ∧
    (firstState sampleState).map (·.monitoring_indexed) = some true ∧
    (firstState sampleState).map (fun s' => errB (prepare_features s')) = some true :=
  prepare_features_second_call_fails sampleState (by decide)



